import Mathlib

/-!
Verification development for the tsgen repository (TypeScript function
generator). The TypeScript sources are shallowly embedded as executable
Lean definitions:

* core/check.ts       : parseParameters, extractFunctionSignature,
                        hasCompilationErrors
* io/tsc.ts           : the result record built by typeCheckFunction
* core/generate.ts    : generateFunctionWithRetries (retry state machine)
* core/highlight.ts   : generateGenericTests and its value generators
* llm-test-enhancer   : enhanceTestsWithLLM, generateFallbackTests
* test-runner         : the aggregate pass-rate verdict of runTests

JavaScript strings are modelled as Lean String values, with all string
operations implemented by structural recursion on the underlying
character list so that every definition evaluates by kernel reduction.
JavaScript runtime values appearing in generated test cases are modelled
by the JSValue type below; the clock read by the Date constructor is an
explicit parameter of every definition that reaches it.
-/

/-- Character-list version of the JavaScript startsWith test: the first
argument is an initial segment of the second. -/
def startsWithChars : List Char → List Char → Bool
  | [], _ => true
  | _ :: _, [] => false
  | p :: ps, c :: cs => p == c && startsWithChars ps cs

/-- Does the pattern occur as a contiguous substring of the list?
Models the JavaScript String.prototype.includes test. -/
def subOccurs (pat : List Char) : List Char → Bool
  | [] => startsWithChars pat []
  | l@(_ :: rest) => startsWithChars pat l || subOccurs pat rest

/-- JavaScript s.includes(pat) on Lean strings. -/
def strIncludes (s pat : String) : Bool := subOccurs pat.data s.data

/-- Drop leading and trailing whitespace from a character list
(JavaScript String.prototype.trim). -/
def trimChars (l : List Char) : List Char :=
  ((l.dropWhile Char.isWhitespace).reverse.dropWhile Char.isWhitespace).reverse

/-- JavaScript s.trim() on Lean strings. -/
def trimStr (s : String) : String := String.mk (trimChars s.data)

/-- JavaScript s.toLowerCase() on Lean strings (ASCII case folding,
matching the type-name tokens the sources compare against). -/
def lowerStr (s : String) : String := String.mk (s.data.map Char.toLower)

/-- Split a character list at every occurrence of the separator
character; models JavaScript String.prototype.split with a one-character
separator (an empty input yields one empty field). -/
def splitOnCharList (sep : Char) : List Char → List (List Char)
  | [] => [[]]
  | x :: xs =>
    if x == sep then [] :: splitOnCharList sep xs
    else
      match splitOnCharList sep xs with
      | [] => [[x]]
      | h :: t => (x :: h) :: t

/-- JavaScript s.split(sep) for a one-character separator. -/
def splitStr (sep : Char) (s : String) : List String :=
  (splitOnCharList sep s.data).map String.mk

/-- Remove the first occurrence of a character (JavaScript
s.replace(c, empty) with a plain one-character pattern replaces only the
first occurrence). -/
def removeFirstChar (c : Char) : List Char → List Char
  | [] => []
  | x :: xs => if x == c then xs else x :: removeFirstChar c xs

/-- Replace every occurrence of a character (JavaScript replaceAll with
a one-character pattern). -/
def replaceAllChar (c r : Char) (l : List Char) : List Char :=
  l.map (fun x => if x == c then r else x)

/-- JavaScript s.startsWith(p) on Lean strings. -/
def strBeginsWith (s p : String) : Bool := startsWithChars p.data s.data

/-- JavaScript s.endsWith(p) on Lean strings. -/
def strFinishesWith (s p : String) : Bool :=
  startsWithChars p.data.reverse s.data.reverse

/-- Word character of the regex class backslash-w: letter, digit or
underscore. -/
def isWordChar (c : Char) : Bool := c.isAlphanum || c == '_'

/-! ## Data model (shared/types.ts) -/

/-- Severity of a TypeScript diagnostic (the severity field of
TypeCheckError in shared/types.ts). -/
inductive Severity where
  | error
  | warning
  deriving DecidableEq, Repr

/-- TypeCheckError from shared/types.ts. -/
structure TypeCheckError where
  line : Nat
  column : Nat
  errorCode : Nat
  message : String
  severity : Severity
  deriving DecidableEq, Repr

/-- FunctionParameter from shared/types.ts. -/
structure FunctionParameter where
  name : String
  type : String
  isOptional : Bool
  isRest : Bool
  deriving DecidableEq, Repr

/-- FunctionSignature from shared/types.ts. -/
structure FunctionSignature where
  name : String
  parameters : List FunctionParameter
  returnType : String
  throwsTypes : List String
  isAsync : Bool
  deriving DecidableEq, Repr

/-- TypeCheckResult as built by typeCheckFunction in io/tsc.ts: the
extracted signature (null only in the declared type, never in the value
the function returns), the parsed diagnostics and the isValid flag. -/
structure TypeCheckResult where
  signature : Option FunctionSignature
  errors : List TypeCheckError
  isValid : Bool
  deriving DecidableEq, Repr

/-- IterationStep from shared/types.ts; the iteration index is kept as
an integer exactly as the JavaScript number it models. -/
structure IterationStep where
  iteration : Int
  code : String
  errors : List TypeCheckError
  errorCount : Nat
  deriving DecidableEq, Repr

/-- GenerationResult from shared/types.ts. -/
structure GenerationResult where
  success : Bool
  code : String
  typeCheckResult : TypeCheckResult
  iterations : Int
  iterationHistory : List IterationStep
  deriving DecidableEq, Repr

/-! ## core/check.ts -/

/-- hasCompilationErrors (check.ts lines 214-216): true when some
diagnostic has severity error; warnings alone do not count. -/
def hasCompilationErrors (result : TypeCheckResult) : Bool :=
  result.errors.any (fun e => e.severity == Severity.error)

/-- parseParameters (check.ts lines 113-149). The parameter string is
split at every comma (JavaScript split with no bracket awareness), each
piece is trimmed, empty pieces are dropped, a leading spread marker
makes a rest parameter, the piece is split at colons with the first two
fields used as name and type, a question mark in the name or an equals
sign in the type marks the parameter optional, and the type is the text
before the first equals sign (falling back to the any type). -/
def parseParameters (paramString : String) : List FunctionParameter :=
  if trimStr paramString = "" then []
  else
    let paramParts := (splitStr ',' paramString).map trimStr
    paramParts.filterMap (fun part =>
      if part = "" then none
      else
        let isRest := strBeginsWith part "..."
        let cleanPart := if strBeginsWith part "..." then part.drop 3 else part
        let pieces := (splitStr ':' cleanPart).map trimStr
        let nameWithOptional := pieces.headD ""
        let typeWithDefault := pieces.get? 1
        if nameWithOptional = "" then none
        else
          let isOptional := strIncludes nameWithOptional "?" ||
            (match typeWithDefault with
             | some t => strIncludes t "="
             | none => false)
          let name := String.mk (removeFirstChar '?' nameWithOptional.data)
          let type :=
            match typeWithDefault with
            | some t =>
              let cap := trimStr (String.mk (t.data.takeWhile (fun c => c != '=')))
              if cap = "" then "any" else cap
            | none => "any"
          some { name := name, type := type, isOptional := isOptional, isRest := isRest })

/-- Skip to just after the first block-comment terminator (star slash);
none when the list holds no terminator. -/
def dropBlockEnd : List Char → Option (List Char)
  | [] => none
  | '*' :: '/' :: rest => some rest
  | _ :: rest => dropBlockEnd rest

/-- Fueled worker for block-comment stripping: at every comment opener
(slash star) with a matching terminator the whole comment is removed
(the regex is non greedy, so the removal stops at the first
terminator); an opener without a terminator matches nothing and is
kept. Fuel is the length of the input, which bounds the recursion. -/
def stripBlockGo : Nat → List Char → List Char
  | 0, l => l
  | _ + 1, [] => []
  | fuel + 1, '/' :: '*' :: rest =>
    match dropBlockEnd rest with
    | some rest' => stripBlockGo fuel rest'
    | none => '/' :: '*' :: stripBlockGo fuel rest
  | fuel + 1, c :: rest => c :: stripBlockGo fuel rest

/-- Remove block comments, modelling the first replace of
extractFunctionSignature (check.ts line 62). -/
def stripBlockComments (l : List Char) : List Char := stripBlockGo l.length l

/-- Index of the first double slash in a line, if any. -/
def findLineCommentIdx : List Char → Option Nat
  | [] => none
  | l@(_ :: rest) =>
    if startsWithChars ['/', '/'] l then some 0
    else (findLineCommentIdx rest).map (· + 1)

/-- Remove line comments: on every line, cut from the first double
slash to the end of the line (check.ts line 63, multiline regex). -/
def stripLineComments (l : List Char) : List Char :=
  let cutLine := fun (line : List Char) =>
    match findLineCommentIdx line with
    | some i => line.take i
    | none => line
  List.intercalate ['\n'] ((splitOnCharList '\n' l).map cutLine)

/-- Match attempt for the named-declaration pattern at the head of the
list: the keyword function, mandatory whitespace, then a word; returns
the captured word. The optional export and async prefixes of the regex
never change the captured group, so the leftmost capture is the capture
at the leftmost bare occurrence. -/
def tryFunctionAt (l : List Char) : Option (List Char) :=
  if startsWithChars "function".data l then
    let r := l.drop 8
    if (r.takeWhile Char.isWhitespace).isEmpty then none
    else
      let r2 := r.dropWhile Char.isWhitespace
      let w := r2.takeWhile isWordChar
      if w.isEmpty then none else some w
  else none

/-- Leftmost match of the named-declaration pattern (check.ts lines
66-68). -/
def findFunctionName : List Char → Option (List Char)
  | [] => none
  | l@(_ :: rest) =>
    match tryFunctionAt l with
    | some w => some w
    | none => findFunctionName rest

/-- Match attempt for the assignment-to-callable pattern at the head of
the list: the keyword const, whitespace, a captured word, optional
whitespace, an equals sign, optional whitespace, an optional async
keyword followed by mandatory whitespace, then an opening parenthesis. -/
def tryArrowAt (l : List Char) : Option (List Char) :=
  if startsWithChars "const".data l then
    let r := l.drop 5
    if (r.takeWhile Char.isWhitespace).isEmpty then none
    else
      let r2 := r.dropWhile Char.isWhitespace
      let w := r2.takeWhile isWordChar
      if w.isEmpty then none
      else
        match (r2.drop w.length).dropWhile Char.isWhitespace with
        | '=' :: r3 =>
          let r4 := r3.dropWhile Char.isWhitespace
          let r5 :=
            if startsWithChars "async".data r4 then
              let afterA := r4.drop 5
              if (afterA.takeWhile Char.isWhitespace).isEmpty then r4
              else afterA.dropWhile Char.isWhitespace
            else r4
          match r5 with
          | '(' :: _ => some w
          | _ => none
        | _ => none
  else none

/-- Leftmost match of the assignment-to-callable pattern (check.ts
lines 69-71). -/
def findArrowName : List Char → Option (List Char)
  | [] => none
  | l@(_ :: rest) =>
    match tryArrowAt l with
    | some w => some w
    | none => findArrowName rest

/-- Match attempt for the asynchrony marker at the head of the list:
either the async keyword, whitespace and the function keyword, or an
equals sign, optional whitespace, the async keyword, optional
whitespace and an opening parenthesis (check.ts line 75). -/
def asyncMarkerAt (l : List Char) : Bool :=
  (startsWithChars "async".data l &&
    (let r := l.drop 5
     !(r.takeWhile Char.isWhitespace).isEmpty &&
       startsWithChars "function".data (r.dropWhile Char.isWhitespace))) ||
  (match l with
   | '=' :: r =>
     let r2 := r.dropWhile Char.isWhitespace
     startsWithChars "async".data r2 &&
       (match (r2.drop 5).dropWhile Char.isWhitespace with
        | '(' :: _ => true
        | _ => false)
   | _ => false)

/-- Regex test for the asynchrony marker anywhere in the text. -/
def testIsAsync : List Char → Bool
  | [] => false
  | l@(_ :: rest) => asyncMarkerAt l || testIsAsync rest

/-- Capture of the first parenthesized group without nested closing
parentheses (check.ts line 78): everything between the first opening
parenthesis and the next closing one; none when no closing parenthesis
follows the first opening one (no later opening parenthesis can match
either, because the text after it is a suffix). -/
def extractParams : List Char → Option (List Char)
  | [] => none
  | '(' :: rest =>
    if rest.any (fun c => c == ')') then some (rest.takeWhile (fun c => c != ')'))
    else none
  | _ :: rest => extractParams rest

/-- Match attempt for the return-type pattern at the head of the list:
a closing parenthesis, a colon, greedy optional whitespace, then a
capture of at least one character that is neither an opening brace nor
an equals sign. When every character after the whitespace is excluded
but the whitespace run is non empty, the regex backtracks and captures
trailing whitespace instead (which the caller trims away to nothing);
that case returns the whitespace run, whose trimmed value is likewise
empty. Only when no capture at all is possible does the scan move on. -/
def tryReturnTypeAt : List Char → Option (List Char)
  | ')' :: ':' :: r =>
    let w := r.takeWhile Char.isWhitespace
    let rest2 := r.dropWhile Char.isWhitespace
    match rest2 with
    | c :: _ =>
      if c != '\x7b' && c != '=' then
        some (rest2.takeWhile (fun d => d != '\x7b' && d != '='))
      else if w.isEmpty then none else some w
    | [] => if w.isEmpty then none else some w
  | _ => none

/-- Leftmost match of the return-type pattern (check.ts line 83). -/
def findReturnType : List Char → Option (List Char)
  | [] => none
  | l@(_ :: rest) =>
    match tryReturnTypeAt l with
    | some cap => some cap
    | none => findReturnType rest

/-- The Promise unwrap of check.ts line 88: remove one leading
Promise wrapper opener and one trailing closing angle bracket (the two
anchored alternatives of a global regex, each matching at most once). -/
def unwrapPromise (s : String) : String :=
  let t := if strBeginsWith s "Promise<" then s.drop 8 else s
  if strFinishesWith t ">" then t.dropRight 1 else t

/-- Match attempt for a throws annotation at the head of the list: the
at-throws tag, mandatory whitespace, an opening brace, a non empty
capture without closing braces, then a closing brace. Returns the
capture and the remainder after the match (the global regex resumes
scanning there, so matches never overlap). -/
def tryThrowsAt (l : List Char) : Option (String × List Char) :=
  if startsWithChars "@throws".data l then
    let r := l.drop 7
    if (r.takeWhile Char.isWhitespace).isEmpty then none
    else
      match r.dropWhile Char.isWhitespace with
      | '\x7b' :: r2 =>
        let cap := r2.takeWhile (fun c => c != '\x7d')
        if cap.isEmpty then none
        else
          match r2.drop cap.length with
          | '\x7d' :: r3 => some (String.mk cap, r3)
          | _ => none
      | _ => none
  else none

/-- Fueled worker collecting every throws annotation capture from left
to right, resuming after each full match. Fuel is the input length. -/
def collectThrowsGo : Nat → List Char → List String
  | 0, _ => []
  | _ + 1, [] => []
  | fuel + 1, l@(_ :: rest) =>
    match tryThrowsAt l with
    | some (cap, rest') => cap :: collectThrowsGo fuel rest'
    | none => collectThrowsGo fuel rest

/-- All captures of the global throws-annotation regex (check.ts lines
92-96); the fallback to the Error tag in the map is unreachable because
every capture is non empty. -/
def collectThrows (l : List Char) : List String := collectThrowsGo l.length l

/-- The comment-stripping pass of extractFunctionSignature (check.ts
lines 61-63). -/
def cleanCodeOf (code : String) : List Char :=
  stripLineComments (stripBlockComments code.data)

/-- extractFunctionSignature (check.ts lines 55-105), with the throw on
empty or whitespace-only input modelled as the error branch of Except.
All later steps are total: a missing function name falls back to the
placeholder unknownFunction, a missing parameter list to no parameters,
and a missing return-type annotation to the any type. -/
def extractFunctionSignature (code : String) : Except String FunctionSignature :=
  if trimStr code = "" then .error "Code cannot be empty or only whitespace"
  else
    let cl := cleanCodeOf code
    let name :=
      match findFunctionName cl with
      | some w => String.mk w
      | none =>
        match findArrowName cl with
        | some w => String.mk w
        | none => "unknownFunction"
    let isAsync := testIsAsync cl
    let paramString :=
      match extractParams cl with
      | some p => String.mk p
      | none => ""
    let parameters := parseParameters paramString
    let returnType0 :=
      match findReturnType cl with
      | some cap =>
        let t := trimStr (String.mk cap)
        if t = "" then "any" else t
      | none => "any"
    let returnType :=
      if isAsync && returnType0 != "any" then unwrapPromise returnType0
      else returnType0
    let throwsTypes := collectThrows code.data
    .ok { name := name, parameters := parameters, returnType := returnType,
          throwsTypes := throwsTypes, isAsync := isAsync }

/-! ## io/tsc.ts -/

/-- The result record built by typeCheckFunction (tsc.ts lines 53-57)
from the parsed compiler diagnostics and the signature extracted from
the checked code: isValid demands a completely empty diagnostic list
(warnings included) and a non-null signature. -/
def mkTypeCheckResult (signature : FunctionSignature)
    (errors : List TypeCheckError) : TypeCheckResult :=
  { signature := some signature,
    errors := errors,
    isValid := decide (errors.length = 0) && (some signature).isSome }

/-! ## core/generate.ts -/

/-- The collaborators generateFunctionWithRetries calls out to. The
oracle is indexed by its call number so that a stateful oracle (a fresh
completion per call) is expressible; the type checker is the composite
typeCheckFunction collaborator; the two prompt builders (core/prompt.ts)
and the code-block extractor (core/extract.ts) are pure string
transformers whose content never influences the control flow modelled
here, so they are carried as opaque functions. -/
structure GenEnv where
  llmFunction : Nat → String → String
  typeCheckFunction : String → TypeCheckResult
  createFunctionPrompt : String → String
  createRetryPrompt : String → String → TypeCheckResult → String
  extractCodeBlock : String → String

/-- One IterationStep record as pushed by generate.ts (lines 45-51 and
67-74): the step stores the candidate code, all diagnostics, and a
count of the severity-error diagnostics only. -/
def mkStep (iteration : Int) (code : String) (tcr : TypeCheckResult) : IterationStep :=
  { iteration := iteration, code := code, errors := tcr.errors,
    errorCount := (tcr.errors.filter (fun e => e.severity == Severity.error)).length }

/-- The final GenerationResult of generate.ts lines 79-85, built from
the loop state at exit. -/
def finishResult (iteration : Int) (code : String) (tcr : TypeCheckResult)
    (hist : List IterationStep) : GenerationResult :=
  { success := !hasCompilationErrors tcr, code := code, typeCheckResult := tcr,
    iterations := iteration - 1, iterationHistory := hist }

/-- The while loop of generate.ts lines 54-77. The loop condition is
iteration less-or-equal maxRetries and hasCompilationErrors; here the
remaining budget maxRetries - iteration + 1 is carried as structural
fuel, and the iteration counter is kept as the integer the source
increments. Each pass rebuilds the prompt, calls the oracle (call
number = iteration), type checks the raw oracle output, and appends one
IterationStep before re-testing the condition. -/
def retryLoop (env : GenEnv) (userGoal : String) :
    Nat → Int → String → TypeCheckResult → List IterationStep → GenerationResult
  | 0, iteration, code, tcr, hist => finishResult iteration code tcr hist
  | fuel + 1, iteration, code, tcr, hist =>
    if hasCompilationErrors tcr then
      let retryPrompt := env.createRetryPrompt userGoal code tcr
      let code' := env.llmFunction iteration.toNat retryPrompt
      let tcr' := env.typeCheckFunction code'
      retryLoop env userGoal fuel (iteration + 1) code' tcr'
        (hist ++ [mkStep iteration code' tcr'])
    else finishResult iteration code tcr hist

/-- generateFunctionWithRetries (generate.ts lines 20-86). The guards
on an empty goal and a negative retry budget are the Except error
branch (the missing-oracle guard cannot arise here because the oracle
is a total field of GenEnv). Iteration 0 always runs: the initial
prompt is built from the goal alone, the oracle output is passed
through the code-block extractor before type checking (later
iterations check the raw output), and the step is recorded before the
loop decides anything. -/
def generateFunctionWithRetries (env : GenEnv) (userGoal : String)
    (maxRetries : Int) : Except String GenerationResult :=
  if trimStr userGoal = "" then .error "User goal cannot be empty or only whitespace"
  else if maxRetries < 0 then .error "Max retries must be non-negative"
  else
    let initialPrompt := env.createFunctionPrompt userGoal
    let code0 := env.llmFunction 0 initialPrompt
    let tcr0 := env.typeCheckFunction (env.extractCodeBlock code0)
    .ok (retryLoop env userGoal maxRetries.toNat 1 code0 tcr0 [mkStep 0 code0 tcr0])

/-! ## core/highlight.ts : generic test synthesis -/

/-- JavaScript runtime values as they appear in generated test inputs.
The value generators of highlight.ts and of the fallback path of the
test enhancer only ever build null, undefined, booleans, numbers
(including the special values negative zero, infinities and NaN),
strings, arrays of numbers, string-to-string object literals, dates,
regular expression literals and a no-op function; the type covers
exactly those shapes. A valid date carries the instant it was built
from: the Date constructor with no argument reads the ambient clock,
which is the explicit instant parameter threaded through the
generators below. -/
inductive JSValue where
  | vNull
  | vUndefined
  | vBool (b : Bool)
  | vNum (n : Int)
  | vNegZero
  | vPosInfinity
  | vNegInfinity
  | vNaN
  | vStr (s : String)
  | vNumArr (xs : List Int)
  | vStrObj (fields : List (String × String))
  | vDate (instant : Int)
  | vInvalidDate
  | vRegex (source : String)
  | vNoopFunction
  deriving DecidableEq, Repr

/-- TestCase from shared/types.ts (name, description, input, optional
shouldThrow flag, optional expected error tag); an absent optional
field is none. -/
structure TestCase where
  name : String
  description : String
  input : List JSValue
  shouldThrow : Option Bool := none
  expectedError : Option String := none
  deriving DecidableEq, Repr

/-- The array-suffix strip applied before some value lookups
(replace of an end-anchored bracket pair). -/
def stripArraySuffix (s : String) : String :=
  if strFinishesWith s "[]" then s.dropRight 2 else s

/-- generateTypicalValue (highlight.ts lines 275-290). The date branch
builds a Date at the current instant, the explicit clock parameter. -/
def generateTypicalValue (now : Int) (type : String) : JSValue :=
  let normalizedType := trimStr (lowerStr type)
  if strIncludes normalizedType "string" then .vStr "test"
  else if strIncludes normalizedType "number" then .vNum 3
  else if strIncludes normalizedType "boolean" then .vBool true
  else if strIncludes normalizedType "array" || strIncludes normalizedType "[]" then
    .vNumArr [1, 2, 3]
  else if strIncludes normalizedType "object" && !strIncludes normalizedType "[]" then
    .vStrObj [("key", "value")]
  else if strIncludes normalizedType "date" then .vDate now
  else if strIncludes normalizedType "regexp" then .vRegex "test"
  else if strIncludes normalizedType "function" then .vNoopFunction
  else .vStr "defaultValue"

/-- generateEdgeCaseValue (highlight.ts lines 292-306); the date branch
builds an invalid date, a constant. -/
def generateEdgeCaseValue (type : String) : JSValue :=
  let normalizedType := trimStr (lowerStr type)
  if strIncludes normalizedType "string" then .vStr "test🌟多字节文本"
  else if strIncludes normalizedType "number" then .vNum 1
  else if strIncludes normalizedType "boolean" then .vBool false
  else if strIncludes normalizedType "array" || strIncludes normalizedType "[]" then
    .vNumArr []
  else if strIncludes normalizedType "object" && !strIncludes normalizedType "[]" then
    .vStrObj []
  else if strIncludes normalizedType "date" then .vInvalidDate
  else if strIncludes normalizedType "regexp" then .vRegex "(?:)"
  else .vNull

/-- getBoundaryValues (highlight.ts lines 308-341), as the entry list
of the returned record in insertion order. -/
def getBoundaryValues (type : String) : List (String × JSValue) :=
  let normalizedType := trimStr (lowerStr type)
  if strIncludes normalizedType "number" then
    [("zero", .vNum 0), ("negative_one", .vNum (-1)),
     ("positive_infinity", .vPosInfinity), ("negative_infinity", .vNegInfinity),
     ("not_a_number", .vNaN), ("negative_zero", .vNegZero)]
  else if strIncludes normalizedType "string" then
    [("empty_string", .vStr ""),
     ("very_long_string", .vStr (String.mk (List.replicate 10000 'a'))),
     ("unicode_string", .vStr "🌟👨‍💻🚀"),
     ("null_char", .vStr "\x00"),
     ("newline_string", .vStr "line1\nline2")]
  else if strIncludes normalizedType "array" || strIncludes normalizedType "[]" then
    [("empty_array", .vNumArr []), ("single_element", .vNumArr [1]),
     ("large_array", .vNumArr ((List.range 1000).map Int.ofNat))]
  else []

/-- generateMalformedValue (highlight.ts lines 343-357); none models
the null return that makes the caller skip the case. -/
def generateMalformedValue (type : String) : Option JSValue :=
  let normalizedType := trimStr (lowerStr type)
  if strIncludes normalizedType "number" then some (.vStr "not_a_number")
  else if strIncludes normalizedType "string" then some (.vNum 123)
  else if strIncludes normalizedType "boolean" then some (.vStr "true")
  else if strIncludes normalizedType "array" || strIncludes normalizedType "[]" then
    some (.vStr "not_an_array")
  else if strIncludes normalizedType "object" && !strIncludes normalizedType "[]" then
    some (.vStr "not_an_object")
  else if strIncludes normalizedType "date" then some (.vStr "not_a_date")
  else if strIncludes normalizedType "function" then some (.vStr "not_a_function")
  else none

/-- generateEmptyValue (highlight.ts lines 359-372); the date branch is
the epoch date, a constant; the default is the null value itself. -/
def generateEmptyValue (type : String) : JSValue :=
  let normalizedType := trimStr (lowerStr type)
  if strIncludes normalizedType "string" then .vStr ""
  else if strIncludes normalizedType "number" then .vNum 0
  else if strIncludes normalizedType "boolean" then .vBool false
  else if strIncludes normalizedType "array" || strIncludes normalizedType "[]" then
    .vNumArr []
  else if strIncludes normalizedType "object" && !strIncludes normalizedType "[]" then
    .vStrObj []
  else if strIncludes normalizedType "date" then .vDate 0
  else .vNull

/-- generateLargeValue (highlight.ts lines 374-391); none models the
null return that makes the caller skip the case. -/
def generateLargeValue (type : String) : Option JSValue :=
  let normalizedType := trimStr (lowerStr type)
  if strIncludes normalizedType "number" then some (.vNum 1000)
  else if strIncludes normalizedType "string" then
    some (.vStr (String.mk (List.replicate 100000 'x')))
  else if strIncludes normalizedType "array" || strIncludes normalizedType "[]" then
    some (.vNumArr ((List.range 10000).map Int.ofNat))
  else if strIncludes normalizedType "object" && !strIncludes normalizedType "[]" then
    some (.vStrObj ((List.range 1000).map
      (fun i => ("key" ++ toString i, "value" ++ toString i))))
  else none

/-- generateTypicalInputs (highlight.ts lines 133-140): typical value
per parameter, with the array suffix stripped for rest parameters. -/
def generateTypicalInputs (now : Int) (parameters : List FunctionParameter) : List JSValue :=
  parameters.map (fun param =>
    if param.isRest then generateTypicalValue now (stripArraySuffix param.type)
    else generateTypicalValue now param.type)

/-- generateEdgeCaseInputs (highlight.ts lines 142-147). -/
def generateEdgeCaseInputs (parameters : List FunctionParameter) : List JSValue :=
  parameters.map (fun param => generateEdgeCaseValue (stripArraySuffix param.type))

/-- generateNullTests (highlight.ts lines 149-185): nothing when every
parameter is optional; otherwise exactly one null-inputs case and one
undefined-inputs case, in each of which every non-optional parameter is
replaced at once while optional parameters keep typical values. -/
def generateNullTests (now : Int) (name : String)
    (parameters : List FunctionParameter) : List TestCase :=
  let nonOptionalParams := parameters.filter (fun p => !p.isOptional)
  if nonOptionalParams.length = 0 then []
  else
    [{ name := "null_inputs",
       description := name ++ " handles null input values",
       input := parameters.map (fun param =>
         if param.isOptional then generateTypicalValue now param.type else .vNull),
       shouldThrow := some true, expectedError := some "TypeError" },
     { name := "undefined_inputs",
       description := name ++ " handles undefined input values",
       input := parameters.map (fun param =>
         if param.isOptional then generateTypicalValue now param.type else .vUndefined),
       shouldThrow := some true, expectedError := some "TypeError" }]

/-- generateBoundaryTests (highlight.ts lines 187-214): for every
parameter position and every boundary entry of its type, one case
substituting the boundary value at that position and typical values
elsewhere; infinity and not-a-number variants are marked shouldThrow. -/
def generateBoundaryTests (now : Int) (name : String)
    (parameters : List FunctionParameter) : List TestCase :=
  parameters.enum.flatMap (fun ip =>
    (getBoundaryValues ip.2.type).map (fun nv =>
      { name := "boundary_" ++ ip.2.name ++ "_" ++ nv.1,
        description := name ++ " handles " ++
          String.mk (replaceAllChar '_' ' ' nv.1.data) ++ " value for " ++ ip.2.name,
        input := parameters.enum.map (fun jp =>
          if jp.1 = ip.1 then nv.2 else generateTypicalValue now jp.2.type),
        shouldThrow := some (strIncludes nv.1 "infinity" || strIncludes nv.1 "not_a_number"),
        expectedError := none }))

/-- generateMalformedInputTests (highlight.ts lines 216-242): for every
parameter whose type has a malformed counterpart, one shouldThrow case
substituting it at that position and typical values elsewhere. -/
def generateMalformedInputTests (now : Int) (name : String)
    (parameters : List FunctionParameter) : List TestCase :=
  parameters.enum.flatMap (fun ip =>
    match generateMalformedValue ip.2.type with
    | some malformedValue =>
      [{ name := "malformed_" ++ ip.2.name,
         description := name ++ " handles malformed " ++ ip.2.type ++ " for " ++ ip.2.name,
         input := parameters.enum.map (fun jp =>
           if jp.1 = ip.1 then malformedValue else generateTypicalValue now jp.2.type),
         shouldThrow := some true, expectedError := some "TypeError" }]
    | none => [])

/-- generateEmptyInputs (highlight.ts lines 244-246). -/
def generateEmptyInputs (parameters : List FunctionParameter) : List JSValue :=
  parameters.map (fun param => generateEmptyValue param.type)

/-- generateLargeValueTests (highlight.ts lines 248-272): for every
parameter whose type has a large representative, one case (not marked
shouldThrow) substituting it at that position. -/
def generateLargeValueTests (now : Int) (name : String)
    (parameters : List FunctionParameter) : List TestCase :=
  parameters.enum.flatMap (fun ip =>
    match generateLargeValue ip.2.type with
    | some largeValue =>
      [{ name := "large_" ++ ip.2.name,
         description := name ++ " handles large " ++ ip.2.type ++ " for " ++ ip.2.name,
         input := parameters.enum.map (fun jp =>
           if jp.1 = ip.1 then largeValue else generateTypicalValue now jp.2.type),
         shouldThrow := none, expectedError := none }]
    | none => [])

/-- generateGenericTests (highlight.ts lines 28-80): the normal case,
the edge case, the null and undefined cases (when some parameter is
required), the boundary cases, the malformed cases, the empty-values
case, and the large-value cases (pushed only when non empty, which is
the same list either way). -/
def generateGenericTests (now : Int) (signature : FunctionSignature) : List TestCase :=
  let tests : List TestCase :=
    [{ name := "normal_execution",
       description := signature.name ++ " executes with typical input values",
       input := generateTypicalInputs now signature.parameters },
     { name := "edge_case_values",
       description := signature.name ++ " handles edge case input values",
       input := generateEdgeCaseInputs signature.parameters }]
  let tests := tests ++ generateNullTests now signature.name signature.parameters
  let tests := tests ++ generateBoundaryTests now signature.name signature.parameters
  let tests := tests ++ generateMalformedInputTests now signature.name signature.parameters
  let tests := tests ++
    [{ name := "empty_values",
       description := signature.name ++ " handles empty/zero values",
       input := generateEmptyInputs signature.parameters }]
  let largeValueTests := generateLargeValueTests now signature.name signature.parameters
  let tests := if largeValueTests.length > 0 then tests ++ largeValueTests else tests
  tests

/-! ## llm-test-enhancer (enhanceTestsWithLLM, generateFallbackTests) -/

/-- LLMTestCase from the test enhancer: a TestCase extended with an
optional expected output and a mandatory free-text reasoning field. -/
structure LLMTestCase where
  name : String
  description : String
  input : List JSValue
  expectedOutput : Option JSValue := none
  shouldThrow : Option Bool := none
  expectedError : Option String := none
  reasoning : String
  deriving DecidableEq, Repr

/-- LLMTestEnhancementRequest from the test enhancer. -/
structure LLMTestEnhancementRequest where
  originalPrompt : String
  functionCode : String
  functionSignature : FunctionSignature
  genericTests : List TestCase

/-- The possible outcomes of the raced oracle round trip inside
enhanceTestsWithLLM: the race timeout, a failed connection to the
oracle server, an empty model list, a non-ok completion response, a
response without content, or a resolved content string. Every outcome
except resolution surfaces as a rejected promise. -/
inductive LLMCallOutcome where
  | timeout
  | connectionFailed (message : String)
  | noModelsAvailable
  | apiError (status : Nat) (statusText : String)
  | noContent
  | resolved (content : String)
  deriving DecidableEq, Repr

/-- getTypicalValueForType of the test enhancer (lines 435-447). It
differs from the generator in highlight.ts: the raw type is lowercased
but not trimmed, the object branch has no array guard, there are no
regexp or function branches, and the date branch again reads the
clock. -/
def getTypicalValueForType (now : Int) (type : String) : JSValue :=
  let normalizedType := lowerStr type
  if strIncludes normalizedType "string" then .vStr "test"
  else if strIncludes normalizedType "number" then .vNum 3
  else if strIncludes normalizedType "boolean" then .vBool true
  else if strIncludes normalizedType "array" || strIncludes normalizedType "[]" then
    .vNumArr [1, 2, 3]
  else if strIncludes normalizedType "object" then .vStrObj [("key", "value")]
  else if strIncludes normalizedType "date" then .vDate now
  else .vStr "defaultValue"

/-- getEmptyValueForType of the test enhancer (lines 452-463). -/
def getEmptyValueForType (type : String) : JSValue :=
  let normalizedType := lowerStr type
  if strIncludes normalizedType "string" then .vStr ""
  else if strIncludes normalizedType "number" then .vNum 0
  else if strIncludes normalizedType "boolean" then .vBool false
  else if strIncludes normalizedType "array" || strIncludes normalizedType "[]" then
    .vNumArr []
  else if strIncludes normalizedType "object" then .vStrObj []
  else .vNull

/-- generateFallbackTests (test enhancer lines 388-430): the original
prompt argument is received but never used; a typical-values case when
there is at least one parameter, an empty-inputs case when some
parameter type mentions array or string (raw, case sensitive), and
always a return-type-consistency case. Each reasoning field is the
descriptive sentence from the source. -/
def generateFallbackTests (now : Int) (_originalPrompt : String)
    (signature : FunctionSignature) : List LLMTestCase :=
  let functionName := signature.name
  let tests : List LLMTestCase :=
    if signature.parameters.length > 0 then
      [{ name := "functional_typical_case",
         description := "Test " ++ functionName ++ " with typical input values",
         input := signature.parameters.map (fun p => getTypicalValueForType now p.type),
         reasoning := "Validates basic functionality with expected input types" }]
    else []
  let tests :=
    if signature.parameters.any (fun p => strIncludes p.type "array" || strIncludes p.type "string") then
      tests ++
      [{ name := "functional_empty_inputs",
         description := "Test " ++ functionName ++ " with empty inputs",
         input := signature.parameters.map (fun p => getEmptyValueForType p.type),
         reasoning := "Validates handling of empty but valid inputs" }]
    else tests
  tests ++
  [{ name := "return_type_consistency",
     description := "Verify " ++ functionName ++ " returns expected type",
     input := signature.parameters.map (fun p => getTypicalValueForType now p.type),
     reasoning := "Ensures function returns value matching declared return type" }]

/-- enhanceTestsWithLLM (test enhancer lines 60-128). A resolved oracle
round trip returns whatever parseGeneratedTestCases makes of the
content; parseGeneratedTestCases (lines 222-300) is itself total (it
catches its own failures and returns an empty array), so it is carried
here as an opaque total function, and nothing the oracle returns can
reach the catch branch. Every non-resolved outcome rejects the race and
lands in the catch, which returns the fallback list. -/
def enhanceTestsWithLLM
    (parseGeneratedTestCases : String → FunctionSignature → List LLMTestCase)
    (now : Int) (outcome : LLMCallOutcome)
    (request : LLMTestEnhancementRequest) : List LLMTestCase :=
  match outcome with
  | .resolved content => parseGeneratedTestCases content request.functionSignature
  | _ => generateFallbackTests now request.originalPrompt request.functionSignature

/-! ## test-runner (runTests aggregate verdict) -/

/-- The status values the test runner assigns to an individual case. -/
inductive TestStatus where
  | passed
  | failed
  | error
  deriving DecidableEq, Repr

/-- TestCaseResult as produced by the test runner. -/
structure TestCaseResult where
  name : String
  description : String
  passed : Bool
  status : TestStatus
  message : String
  executionTime : Int
  deriving DecidableEq, Repr

/-- The aggregate verdict computed by runTests (test runner lines
123-128): the number of results with status passed, divided by the
total number of results, compared against the 0.6 threshold. Number
division is modelled exactly over the rationals. -/
def runTestsVerdict (testResults : List TestCaseResult) : Bool :=
  let passedTests := (testResults.filter (fun t => t.status == TestStatus.passed)).length
  let totalTests := testResults.length
  decide (((passedTests : ℚ) / (totalTests : ℚ)) ≥ (0.6 : ℚ))

/-! ## Concrete fixtures used by witnesses and counterexamples -/

/-- A sample severity-error diagnostic. -/
def sampleError : TypeCheckError :=
  { line := 1, column := 1, errorCode := 2304,
    message := "Cannot find name bad.", severity := Severity.error }

/-- A sample severity-warning diagnostic. -/
def sampleWarning : TypeCheckError :=
  { line := 2, column := 5, errorCode := 6133,
    message := "Variable is declared but never used.", severity := Severity.warning }

/-- Collaborators whose oracle always yields code the checker rejects
with one severity-error diagnostic. -/
def envAllErrors : GenEnv :=
  { llmFunction := fun _ _ => "const bad = 1",
    typeCheckFunction := fun _ =>
      { signature := none, errors := [sampleError], isValid := false },
    createFunctionPrompt := fun goal => goal,
    createRetryPrompt := fun goal _ _ => goal,
    extractCodeBlock := fun s => s }

/-- Collaborators whose oracle yields rejected code on call 0 and clean
code on every later call. -/
def envSecondClean : GenEnv :=
  { llmFunction := fun i _ => if i == 0 then "const bad = 1" else "const good = 2",
    typeCheckFunction := fun code =>
      if code == "const good = 2" then { signature := none, errors := [], isValid := true }
      else { signature := none, errors := [sampleError], isValid := false },
    createFunctionPrompt := fun goal => goal,
    createRetryPrompt := fun goal _ _ => goal,
    extractCodeBlock := fun s => s }

/-- A minimal signature for the warnings-only fixture. -/
def sigVoid : FunctionSignature :=
  { name := "f", parameters := [], returnType := "void",
    throwsTypes := [], isAsync := false }

/-- Collaborators whose checker builds its result exactly as tsc.ts
does and always reports one warning and no errors. -/
def envWarnOnly : GenEnv :=
  { llmFunction := fun _ _ => "const ok = 1",
    typeCheckFunction := fun _ => mkTypeCheckResult sigVoid [sampleWarning],
    createFunctionPrompt := fun goal => goal,
    createRetryPrompt := fun goal _ _ => goal,
    extractCodeBlock := fun s => s }

/-- One required boolean parameter. -/
def sigBool : FunctionSignature :=
  { name := "toggle",
    parameters := [{ name := "flag", type := "boolean", isOptional := false, isRest := false }],
    returnType := "boolean", throwsTypes := [], isAsync := false }

/-- Two required number parameters. -/
def sigTwoNum : FunctionSignature :=
  { name := "add",
    parameters := [{ name := "a", type := "number", isOptional := false, isRest := false },
                   { name := "b", type := "number", isOptional := false, isRest := false }],
    returnType := "number", throwsTypes := [], isAsync := false }

/-- One required date parameter. -/
def sigDate : FunctionSignature :=
  { name := "formatDate",
    parameters := [{ name := "d", type := "Date", isOptional := false, isRest := false }],
    returnType := "string", throwsTypes := [], isAsync := false }

/-- One required number parameter. -/
def sigOneNum : FunctionSignature :=
  { name := "double",
    parameters := [{ name := "n", type := "number", isOptional := false, isRest := false }],
    returnType := "number", throwsTypes := [], isAsync := false }

/-- An enhancement request over the one-number signature. -/
def reqOneNum : LLMTestEnhancementRequest :=
  { originalPrompt := "double a number",
    functionCode := "function double(n: number): number",
    functionSignature := sigOneNum, genericTests := [] }

/-- A passed case result. -/
def passedCaseResult : TestCaseResult :=
  { name := "t", description := "d", passed := true, status := TestStatus.passed,
    message := "Test passed", executionTime := 1 }

/-- A failed case result. -/
def failedCaseResult : TestCaseResult :=
  { name := "t", description := "d", passed := false, status := TestStatus.failed,
    message := "Test failed", executionTime := 1 }

/-- Ten case results of which seven passed. -/
def tenResults : List TestCaseResult :=
  List.replicate 7 passedCaseResult ++ List.replicate 3 failedCaseResult

/-- Five case results of which two passed. -/
def fiveResults : List TestCaseResult :=
  List.replicate 2 passedCaseResult ++ List.replicate 3 failedCaseResult

/-- A type string is date free when its lowercased, trimmed form does
not mention date (the only branch of generateTypicalValue that reads
the clock). -/
def dateFree (t : String) : Bool := !(strIncludes (trimStr (lowerStr t)) "date")

/-! ## Helper lemmas -/

/-- No compilation errors means every diagnostic has non-error
severity. -/
theorem hasCompilationErrors_eq_false_iff (tcr : TypeCheckResult) :
    hasCompilationErrors tcr = false ↔
      ∀ e ∈ tcr.errors, e.severity ≠ Severity.error := by
  simp [hasCompilationErrors]

/-- Shift identity for mapped ranges of iteration indices. -/
theorem range_map_shift (n : Nat) (base : Int) :
    (List.range (n + 1)).map (fun k : Nat => base + (k : Int)) =
      base :: (List.range n).map (fun k : Nat => (base + 1) + (k : Int)) := by
  induction n with
  | zero =>
    rw [show List.range 1 = [0] from rfl]
    simp
  | succ m ih =>
    rw [show m + 1 + 1 = (m + 1) + 1 from rfl, List.range_succ, List.map_append, ih,
      List.range_succ, List.map_append, List.cons_append]
    refine congrArg _ ?_
    refine congrArg _ ?_
    simp only [List.map_cons, List.map_nil]
    push_cast
    ring_nf

/-- When the current diagnostics hold no severity-error entry the loop
finishes at once, whatever budget remains. -/
theorem retryLoop_clean_exit (env : GenEnv) (goal : String) (fuel : Nat) (iteration : Int)
    (code : String) (tcr : TypeCheckResult) (hist : List IterationStep)
    (h : hasCompilationErrors tcr = false) :
    retryLoop env goal fuel iteration code tcr hist = finishResult iteration code tcr hist := by
  cases fuel with
  | zero => rfl
  | succ n => simp [retryLoop, h]

/-- When every candidate the oracle can return fails the check, the
loop consumes its whole budget: failure verdict, final iteration count
equal to the entry count plus the budget, one appended step per pass,
with consecutive iteration indices. -/
theorem retryLoop_exhausts (env : GenEnv) (goal : String)
    (herr : ∀ i p, hasCompilationErrors (env.typeCheckFunction (env.llmFunction i p)) = true) :
    ∀ (fuel : Nat) (iteration : Int) (code : String) (tcr : TypeCheckResult)
      (hist : List IterationStep), hasCompilationErrors tcr = true →
      (retryLoop env goal fuel iteration code tcr hist).success = false ∧
      (retryLoop env goal fuel iteration code tcr hist).iterations = iteration - 1 + fuel ∧
      (retryLoop env goal fuel iteration code tcr hist).iterationHistory.length = hist.length + fuel ∧
      (retryLoop env goal fuel iteration code tcr hist).iterationHistory.map (fun s => s.iteration) =
        hist.map (fun s => s.iteration) ++ (List.range fuel).map (fun k : Nat => iteration + (k : Int)) := by
  intro fuel
  induction fuel with
  | zero =>
    intro iteration code tcr hist htcr
    refine ⟨?_, ?_, ?_, ?_⟩ <;> simp [retryLoop, finishResult, htcr]
  | succ n ih =>
    intro iteration code tcr hist htcr
    have hstep : retryLoop env goal (n + 1) iteration code tcr hist =
        retryLoop env goal n (iteration + 1)
          (env.llmFunction iteration.toNat (env.createRetryPrompt goal code tcr))
          (env.typeCheckFunction
            (env.llmFunction iteration.toNat (env.createRetryPrompt goal code tcr)))
          (hist ++ [mkStep iteration
            (env.llmFunction iteration.toNat (env.createRetryPrompt goal code tcr))
            (env.typeCheckFunction
              (env.llmFunction iteration.toNat (env.createRetryPrompt goal code tcr)))]) := by
      simp [retryLoop, htcr]
    obtain ⟨ih1, ih2, ih3, ih4⟩ := ih (iteration + 1)
      (env.llmFunction iteration.toNat (env.createRetryPrompt goal code tcr))
      (env.typeCheckFunction
        (env.llmFunction iteration.toNat (env.createRetryPrompt goal code tcr)))
      (hist ++ [mkStep iteration
        (env.llmFunction iteration.toNat (env.createRetryPrompt goal code tcr))
        (env.typeCheckFunction
          (env.llmFunction iteration.toNat (env.createRetryPrompt goal code tcr)))])
      (herr _ _)
    refine ⟨?_, ?_, ?_, ?_⟩
    · rw [hstep]; exact ih1
    · rw [hstep, ih2]; push_cast; ring
    · rw [hstep, ih3]; simp; omega
    · rw [hstep, ih4, range_map_shift]
      simp [mkStep, List.append_assoc]

/-! ## Claim theorems -/

/-- C1: for every non-negative retry budget N and every oracle whose
candidate code always type checks with at least one severity-error
diagnostic, generateFunctionWithRetries returns a GenerationResult with
iterations = N, an iteration history of length N + 1 (one IterationStep
per generate-verify pass, indices 0 through N) and success = false. -/
theorem retry_bound_exhausted (env : GenEnv) (goal : String) (N : Int)
    (hg : trimStr goal ≠ "") (hN : 0 ≤ N)
    (herr : ∀ i p, hasCompilationErrors (env.typeCheckFunction (env.llmFunction i p)) = true)
    (herr0 : ∀ p, hasCompilationErrors
      (env.typeCheckFunction (env.extractCodeBlock (env.llmFunction 0 p))) = true) :
    (generateFunctionWithRetries env goal N).toOption.map
      (fun r => (r.success, r.iterations, (r.iterationHistory.length : Int),
        r.iterationHistory.map (fun s => s.iteration))) =
      some (false, N, N + 1, (List.range (N.toNat + 1)).map (fun k : Nat => (k : Int))) := by
  have hgen : generateFunctionWithRetries env goal N =
      .ok (retryLoop env goal N.toNat 1 (env.llmFunction 0 (env.createFunctionPrompt goal))
        (env.typeCheckFunction (env.extractCodeBlock (env.llmFunction 0 (env.createFunctionPrompt goal))))
        [mkStep 0 (env.llmFunction 0 (env.createFunctionPrompt goal))
          (env.typeCheckFunction (env.extractCodeBlock (env.llmFunction 0 (env.createFunctionPrompt goal))))]) := by
    rw [generateFunctionWithRetries, if_neg hg, if_neg (not_lt.mpr hN)]
  obtain ⟨h1, h2, h3, h4⟩ := retryLoop_exhausts env goal herr N.toNat 1
    (env.llmFunction 0 (env.createFunctionPrompt goal))
    (env.typeCheckFunction (env.extractCodeBlock (env.llmFunction 0 (env.createFunctionPrompt goal))))
    [mkStep 0 (env.llmFunction 0 (env.createFunctionPrompt goal))
      (env.typeCheckFunction (env.extractCodeBlock (env.llmFunction 0 (env.createFunctionPrompt goal))))]
    (herr0 (env.createFunctionPrompt goal))
  rw [hgen]
  simp only [Except.toOption, Option.map_some', h1, h2, h3, h4, Option.some.injEq,
    Prod.mk.injEq, List.length_cons, List.length_nil, range_map_shift]
  refine ⟨trivial, by omega, by push_cast; omega, ?_⟩
  have hsh := range_map_shift N.toNat 0
  simp only [zero_add] at hsh
  exact hsh.symm

/-- Witness for C1 at budget 2 with the always-rejected oracle: three
recorded steps, iterations 2, failure verdict. -/
theorem retry_bound_exhausted_witness :
    (generateFunctionWithRetries envAllErrors "a goal" 2).toOption.map
      (fun r => (r.success, r.iterations, (r.iterationHistory.length : Int),
        r.iterationHistory.map (fun s => s.iteration))) =
      some (false, 2, 3, [0, 1, 2]) := by
  have h := retry_bound_exhausted envAllErrors "a goal" 2 (by decide) (by decide)
    (fun i p => rfl) (fun p => rfl)
  exact h.trans (by decide)

/-- C2: whenever the current candidate diagnostics hold no
severity-error entry (warnings allowed), the retry loop exits at once
and the returned success flag is true; in particular, with an oracle
whose call 0 yields rejected code and whose call 1 yields error-free
code, and at least one retry available, the run stops with
iterations = 1, success = true and two recorded steps. -/
theorem retry_terminates_on_clean (env : GenEnv) (goal : String) (N : Int)
    (hg : trimStr goal ≠ "") (hN : 1 ≤ N)
    (h0 : hasCompilationErrors (env.typeCheckFunction
      (env.extractCodeBlock (env.llmFunction 0 (env.createFunctionPrompt goal)))) = true)
    (h1 : ∀ p, ∀ e ∈ (env.typeCheckFunction (env.llmFunction 1 p)).errors,
      e.severity ≠ Severity.error) :
    (∀ (fuel : Nat) (iteration : Int) (code : String) (tcr : TypeCheckResult)
      (hist : List IterationStep), (∀ e ∈ tcr.errors, e.severity ≠ Severity.error) →
      retryLoop env goal fuel iteration code tcr hist = finishResult iteration code tcr hist ∧
      (retryLoop env goal fuel iteration code tcr hist).success = true) ∧
    (generateFunctionWithRetries env goal N).toOption.map
      (fun r => (r.success, r.iterations, r.iterationHistory.length)) = some (true, 1, 2) := by
  have hexit : ∀ (fuel : Nat) (iteration : Int) (code : String) (tcr : TypeCheckResult)
      (hist : List IterationStep), (∀ e ∈ tcr.errors, e.severity ≠ Severity.error) →
      retryLoop env goal fuel iteration code tcr hist = finishResult iteration code tcr hist ∧
      (retryLoop env goal fuel iteration code tcr hist).success = true := by
    intro fuel iteration code tcr hist h
    have hf : hasCompilationErrors tcr = false := (hasCompilationErrors_eq_false_iff tcr).mpr h
    refine ⟨retryLoop_clean_exit env goal fuel iteration code tcr hist hf, ?_⟩
    rw [retryLoop_clean_exit env goal fuel iteration code tcr hist hf]
    simp [finishResult, hf]
  refine ⟨hexit, ?_⟩
  have hgen : generateFunctionWithRetries env goal N =
      .ok (retryLoop env goal N.toNat 1 (env.llmFunction 0 (env.createFunctionPrompt goal))
        (env.typeCheckFunction (env.extractCodeBlock (env.llmFunction 0 (env.createFunctionPrompt goal))))
        [mkStep 0 (env.llmFunction 0 (env.createFunctionPrompt goal))
          (env.typeCheckFunction (env.extractCodeBlock (env.llmFunction 0 (env.createFunctionPrompt goal))))]) := by
    rw [generateFunctionWithRetries, if_neg hg, if_neg (by omega : ¬ N < 0)]
  have hm : N.toNat = (N.toNat - 1) + 1 := by omega
  rw [hgen, hm]
  have hstep : retryLoop env goal ((N.toNat - 1) + 1) 1
      (env.llmFunction 0 (env.createFunctionPrompt goal))
      (env.typeCheckFunction (env.extractCodeBlock (env.llmFunction 0 (env.createFunctionPrompt goal))))
      [mkStep 0 (env.llmFunction 0 (env.createFunctionPrompt goal))
        (env.typeCheckFunction (env.extractCodeBlock (env.llmFunction 0 (env.createFunctionPrompt goal))))] =
      retryLoop env goal (N.toNat - 1) 2
        (env.llmFunction 1 (env.createRetryPrompt goal
          (env.llmFunction 0 (env.createFunctionPrompt goal))
          (env.typeCheckFunction (env.extractCodeBlock (env.llmFunction 0 (env.createFunctionPrompt goal))))))
        (env.typeCheckFunction (env.llmFunction 1 (env.createRetryPrompt goal
          (env.llmFunction 0 (env.createFunctionPrompt goal))
          (env.typeCheckFunction (env.extractCodeBlock (env.llmFunction 0 (env.createFunctionPrompt goal)))))))
        ([mkStep 0 (env.llmFunction 0 (env.createFunctionPrompt goal))
          (env.typeCheckFunction (env.extractCodeBlock (env.llmFunction 0 (env.createFunctionPrompt goal))))] ++
         [mkStep 1 (env.llmFunction 1 (env.createRetryPrompt goal
            (env.llmFunction 0 (env.createFunctionPrompt goal))
            (env.typeCheckFunction (env.extractCodeBlock (env.llmFunction 0 (env.createFunctionPrompt goal))))))
          (env.typeCheckFunction (env.llmFunction 1 (env.createRetryPrompt goal
            (env.llmFunction 0 (env.createFunctionPrompt goal))
            (env.typeCheckFunction (env.extractCodeBlock (env.llmFunction 0 (env.createFunctionPrompt goal)))))))]) := by
    simp [retryLoop, h0]
  rw [hstep]
  obtain ⟨heq, -⟩ := hexit (N.toNat - 1) 2 _ _ _ (h1 _)
  rw [heq]
  have hf1 : hasCompilationErrors (env.typeCheckFunction (env.llmFunction 1
      (env.createRetryPrompt goal (env.llmFunction 0 (env.createFunctionPrompt goal))
        (env.typeCheckFunction (env.extractCodeBlock
          (env.llmFunction 0 (env.createFunctionPrompt goal))))))) = false :=
    (hasCompilationErrors_eq_false_iff _).mpr (h1 _)
  simp [finishResult, hf1, Except.toOption]

/-- Witness for C2: with the fixture oracle whose second call is clean
and budget 3, the run stops at iteration 1 with success. -/
theorem retry_terminates_on_clean_witness :
    (generateFunctionWithRetries envSecondClean "a goal" 3).toOption.map
      (fun r => (r.success, r.iterations, r.iterationHistory.length)) = some (true, 1, 2) :=
  (retry_terminates_on_clean envSecondClean "a goal" 3 (by decide) (by decide) rfl
    (fun p e he => by
      rw [show envSecondClean.typeCheckFunction (envSecondClean.llmFunction 1 p) =
        { signature := none, errors := [], isValid := true } from rfl] at he
      simp at he)).2

/-- C10: the checker wrapper marks isValid only for a completely empty
diagnostic list, warnings included; hence a run whose first candidate
draws only warnings finishes with success = true (no compilation
errors) while its typeCheckResult has isValid = false. -/
theorem warnings_only_success_invalid (env : GenEnv) (goal : String) (N : Int)
    (hg : trimStr goal ≠ "") (hN : 0 ≤ N)
    (sig0 : FunctionSignature) (errs0 : List TypeCheckError)
    (hres : env.typeCheckFunction (env.extractCodeBlock
      (env.llmFunction 0 (env.createFunctionPrompt goal))) = mkTypeCheckResult sig0 errs0)
    (hne : errs0 ≠ []) (hw : ∀ e ∈ errs0, e.severity = Severity.warning) :
    (∀ (sig : FunctionSignature) (errs : List TypeCheckError),
      (mkTypeCheckResult sig errs).isValid = true ↔ errs = []) ∧
    (generateFunctionWithRetries env goal N).toOption.map
      (fun r => (r.success, r.typeCheckResult.isValid, hasCompilationErrors r.typeCheckResult)) =
      some (true, false, false) := by
  constructor
  · intro sig errs
    simp [mkTypeCheckResult, List.length_eq_zero]
  · have hgen : generateFunctionWithRetries env goal N =
        .ok (retryLoop env goal N.toNat 1 (env.llmFunction 0 (env.createFunctionPrompt goal))
          (env.typeCheckFunction (env.extractCodeBlock (env.llmFunction 0 (env.createFunctionPrompt goal))))
          [mkStep 0 (env.llmFunction 0 (env.createFunctionPrompt goal))
            (env.typeCheckFunction (env.extractCodeBlock (env.llmFunction 0 (env.createFunctionPrompt goal))))]) := by
      rw [generateFunctionWithRetries, if_neg hg, if_neg (by omega : ¬ N < 0)]
    have hnoerr : hasCompilationErrors (env.typeCheckFunction (env.extractCodeBlock
        (env.llmFunction 0 (env.createFunctionPrompt goal)))) = false := by
      rw [hres]
      refine (hasCompilationErrors_eq_false_iff _).mpr ?_
      intro e he
      rw [hw e he]
      intro hcon
      exact Severity.noConfusion hcon
    rw [hgen, retryLoop_clean_exit env goal N.toNat 1 _ _ _ hnoerr]
    have hinvalid : (env.typeCheckFunction (env.extractCodeBlock
        (env.llmFunction 0 (env.createFunctionPrompt goal)))).isValid = false := by
      rw [hres]
      simp [mkTypeCheckResult, List.length_eq_zero, hne]
    simp [finishResult, Except.toOption, hnoerr, hinvalid]

/-- Witness for C10 with the warnings-only checker fixture at budget 3. -/
theorem warnings_only_success_invalid_witness :
    (generateFunctionWithRetries envWarnOnly "a goal" 3).toOption.map
      (fun r => (r.success, r.typeCheckResult.isValid, hasCompilationErrors r.typeCheckResult)) =
      some (true, false, false) :=
  (warnings_only_success_invalid envWarnOnly "a goal" 3 (by decide) (by decide)
    sigVoid [sampleWarning] rfl (by decide) (by decide)).2

/-- C7: the aggregate verdict of the test runner is success exactly
when the passed fraction reaches the 0.6 threshold; with 10 case
results of which 7 passed the verdict is true, with 5 of which 2 passed
it is false. -/
theorem aggregate_verdict_threshold :
    (∀ rs : List TestCaseResult, rs ≠ [] →
      (runTestsVerdict rs = true ↔
        5 * (rs.filter (fun t => t.status == TestStatus.passed)).length ≥ 3 * rs.length)) ∧
    runTestsVerdict tenResults = true ∧ runTestsVerdict fiveResults = false := by
  have hiff : ∀ rs : List TestCaseResult, rs ≠ [] →
      (runTestsVerdict rs = true ↔
        5 * (rs.filter (fun t => t.status == TestStatus.passed)).length ≥ 3 * rs.length) := by
    intro rs hrs
    have ht : 0 < (rs.length : ℚ) := by
      have := List.length_pos.mpr hrs
      exact_mod_cast this
    simp only [runTestsVerdict, decide_eq_true_eq]
    rw [ge_iff_le, le_div_iff₀ ht]
    constructor
    · intro h
      have hq : (3 : ℚ) * rs.length ≤
          5 * ((rs.filter (fun t => t.status == TestStatus.passed)).length : ℚ) := by
        have h6 : (0.6 : ℚ) = 3 / 5 := by norm_num
        rw [h6] at h
        linarith
      exact_mod_cast hq
    · intro h
      have hq : (3 : ℚ) * rs.length ≤
          5 * ((rs.filter (fun t => t.status == TestStatus.passed)).length : ℚ) := by
        exact_mod_cast h
      have h6 : (0.6 : ℚ) = 3 / 5 := by norm_num
      rw [h6]
      linarith
  refine ⟨hiff, ?_, ?_⟩
  · exact (hiff tenResults (by decide)).mpr (by decide)
  · cases hb : runTestsVerdict fiveResults with
    | false => rfl
    | true =>
      exfalso
      have hx := (hiff fiveResults (by decide)).mp hb
      have hl1 : (fiveResults.filter (fun t => t.status == TestStatus.passed)).length = 2 := by
        decide
      have hl2 : fiveResults.length = 5 := by decide
      omega

/-- Witness for C7: the threshold characterization applied to the
ten-result fixture. -/
theorem aggregate_verdict_threshold_witness :
    runTestsVerdict tenResults = true ↔
      5 * (tenResults.filter (fun t => t.status == TestStatus.passed)).length ≥
        3 * tenResults.length :=
  aggregate_verdict_threshold.1 tenResults (by decide)

/-- Counterexample to C3 as stated: on a timed-out oracle call over the
one-number-parameter request, the enhancer does return a non-empty
list, but its entries carry the descriptive reasoning sentences of
generateFallbackTests, so not every entry has reasoning equal to the
tag fallback. -/
theorem enhancer_fallback_reasoning_counterexample :
    (enhanceTestsWithLLM (fun _ _ => []) 0 LLMCallOutcome.timeout reqOneNum) ≠ [] ∧
    (enhanceTestsWithLLM (fun _ _ => []) 0 LLMCallOutcome.timeout reqOneNum).all
      (fun t => t.reasoning == "fallback") = false := by
  decide

/-- C3 as amended: on every oracle outcome that is not a resolved
response (timeout, connection failure, missing models, non-ok status,
missing content) the enhancer returns the fallback list, which is never
empty and is derived only from the Signature (the same list results
from any request sharing the signature); its entries carry descriptive
reasoning sentences rather than a fallback tag, and a resolved response
is instead handed to the tolerant parser, whose output is returned as
is. -/
theorem enhancer_failure_fallback
    (parse : String → FunctionSignature → List LLMTestCase) (now : Int)
    (outcome : LLMCallOutcome) (request : LLMTestEnhancementRequest)
    (hfail : ∀ c, outcome ≠ LLMCallOutcome.resolved c) :
    enhanceTestsWithLLM parse now outcome request =
      generateFallbackTests now request.originalPrompt request.functionSignature ∧
    enhanceTestsWithLLM parse now outcome request ≠ [] ∧
    ∀ prompt code tests, enhanceTestsWithLLM parse now outcome
      { originalPrompt := prompt, functionCode := code,
        functionSignature := request.functionSignature, genericTests := tests } =
      generateFallbackTests now prompt request.functionSignature := by
  have hmatch : ∀ req : LLMTestEnhancementRequest,
      enhanceTestsWithLLM parse now outcome req =
        generateFallbackTests now req.originalPrompt req.functionSignature := by
    intro req
    cases outcome <;> first
      | exact absurd rfl (hfail _)
      | rfl
  refine ⟨hmatch request, ?_, ?_⟩
  · rw [hmatch request]
    simp [generateFallbackTests]
  · intro prompt code tests
    exact hmatch
      { originalPrompt := prompt, functionCode := code,
        functionSignature := request.functionSignature, genericTests := tests }

/-- Witness for C3 as amended, at the timed-out oracle over the
one-number-parameter request. -/
theorem enhancer_failure_fallback_witness :
    enhanceTestsWithLLM (fun _ _ => []) 0 LLMCallOutcome.timeout reqOneNum =
      generateFallbackTests 0 reqOneNum.originalPrompt reqOneNum.functionSignature ∧
    enhanceTestsWithLLM (fun _ _ => []) 0 LLMCallOutcome.timeout reqOneNum ≠ [] :=
  ⟨(enhancer_failure_fallback (fun _ _ => []) 0 LLMCallOutcome.timeout reqOneNum
      (fun _ h => LLMCallOutcome.noConfusion h)).1,
   (enhancer_failure_fallback (fun _ _ => []) 0 LLMCallOutcome.timeout reqOneNum
      (fun _ h => LLMCallOutcome.noConfusion h)).2.1⟩

/-- Counterexample to C4 as stated: the signature with one required
boolean parameter receives only 6 generic tests (normal, edge, null,
undefined, malformed, empty), fewer than the claimed floor of 10,
because the boolean type has no boundary table, no large
representative, and only one malformed case. -/
theorem coverage_floor_counterexample :
    (generateGenericTests 0 sigBool).length = 6 ∧
    ¬ 10 ≤ (generateGenericTests 0 sigBool).length := by
  decide

/-- C4 as amended: for every signature with at least one required
(non-optional) parameter, the generic synthesizer returns at least 5
test cases (normal, edge, null, undefined and empty are always
present); the floor of 10 holds only for types with populated boundary,
malformed and large tables, not for every signature. -/
theorem coverage_floor_amended (now : Int) (sig : FunctionSignature)
    (h : ∃ p ∈ sig.parameters, p.isOptional = false) :
    5 ≤ (generateGenericTests now sig).length := by
  obtain ⟨p, hp, hpo⟩ := h
  have hnull : (generateNullTests now sig.name sig.parameters).length = 2 := by
    have hmem : p ∈ sig.parameters.filter (fun q => !q.isOptional) := by
      simp [List.mem_filter, hp, hpo]
    have hne : (sig.parameters.filter (fun q => !q.isOptional)).length ≠ 0 := by
      intro hlen
      rw [List.length_eq_zero] at hlen
      simp [hlen] at hmem
    simp [generateNullTests, hne]
  simp only [generateGenericTests]
  split <;>
    simp only [List.length_append, List.length_cons, List.length_nil, hnull] <;>
    omega

/-- Witness for C4 as amended at the two-number signature. -/
theorem coverage_floor_amended_witness :
    5 ≤ (generateGenericTests 0 sigTwoNum).length :=
  coverage_floor_amended 0 sigTwoNum (by decide)

/-- Two strings with distinct leading characters differ. -/
theorem ne_of_data_head {s t : String} {a b : Char} (hs : s.data.head? = some a)
    (ht : t.data.head? = some b) (hab : a ≠ b) : s ≠ t := by
  intro he
  rw [he, ht] at hs
  injection hs with h
  exact hab h.symm

/-- Every boundary test name starts with the boundary tag. -/
theorem boundary_name_shape (now : Int) (name : String) (ps : List FunctionParameter) :
    ∀ t ∈ generateBoundaryTests now name ps, ∃ x y, t.name = "boundary_" ++ x ++ "_" ++ y := by
  intro t ht
  simp only [generateBoundaryTests, List.mem_flatMap, List.mem_map] at ht
  obtain ⟨ip, _, nv, _, rfl⟩ := ht
  exact ⟨ip.2.name, nv.1, rfl⟩

/-- Every malformed-input test name starts with the malformed tag. -/
theorem malformed_name_shape (now : Int) (name : String) (ps : List FunctionParameter) :
    ∀ t ∈ generateMalformedInputTests now name ps, ∃ x, t.name = "malformed_" ++ x := by
  intro t ht
  simp only [generateMalformedInputTests, List.mem_flatMap] at ht
  obtain ⟨ip, _, hmem⟩ := ht
  cases hmv : generateMalformedValue ip.2.type with
  | none =>
    rw [hmv] at hmem
    simp at hmem
  | some v =>
    rw [hmv] at hmem
    simp at hmem
    subst hmem
    exact ⟨ip.2.name, rfl⟩

/-- Every large-value test name starts with the large tag. -/
theorem large_name_shape (now : Int) (name : String) (ps : List FunctionParameter) :
    ∀ t ∈ generateLargeValueTests now name ps, ∃ x, t.name = "large_" ++ x := by
  intro t ht
  simp only [generateLargeValueTests, List.mem_flatMap] at ht
  obtain ⟨ip, _, hmem⟩ := ht
  cases hmv : generateLargeValue ip.2.type with
  | none =>
    rw [hmv] at hmem
    simp at hmem
  | some v =>
    rw [hmv] at hmem
    simp at hmem
    subst hmem
    exact ⟨ip.2.name, rfl⟩

/-- No boundary, malformed or large test is named like the null or
undefined cases. -/
theorem other_segments_filter_nil (now : Int) (name : String)
    (ps : List FunctionParameter) (target : String)
    (htarget : target.data.head? = some 'n' ∨ target.data.head? = some 'u') :
    (generateBoundaryTests now name ps).filter (fun t => t.name == target) = [] ∧
    (generateMalformedInputTests now name ps).filter (fun t => t.name == target) = [] ∧
    (generateLargeValueTests now name ps).filter (fun t => t.name == target) = [] := by
  refine ⟨?_, ?_, ?_⟩
  · rw [List.filter_eq_nil_iff]
    intro t ht
    obtain ⟨x, y, hxy⟩ := boundary_name_shape now name ps t ht
    simp only [beq_iff_eq, hxy]
    cases htarget with
    | inl h => exact ne_of_data_head rfl h (by decide)
    | inr h => exact ne_of_data_head rfl h (by decide)
  · rw [List.filter_eq_nil_iff]
    intro t ht
    obtain ⟨x, hx⟩ := malformed_name_shape now name ps t ht
    simp only [beq_iff_eq, hx]
    cases htarget with
    | inl h => exact ne_of_data_head rfl h (by decide)
    | inr h => exact ne_of_data_head rfl h (by decide)
  · rw [List.filter_eq_nil_iff]
    intro t ht
    obtain ⟨x, hx⟩ := large_name_shape now name ps t ht
    simp only [beq_iff_eq, hx]
    cases htarget with
    | inl h => exact ne_of_data_head rfl h (by decide)
    | inr h => exact ne_of_data_head rfl h (by decide)

/-- The null-inputs and undefined-inputs cases produced by
generateNullTests, filtered by name. -/
theorem nullTests_filter (now : Int) (name : String) (ps : List FunctionParameter) :
    ((generateNullTests now name ps).filter (fun t => t.name == "null_inputs") =
      if (ps.filter (fun p => !p.isOptional)).length = 0 then []
      else [{ name := "null_inputs",
              description := name ++ " handles null input values",
              input := ps.map (fun param =>
                if param.isOptional then generateTypicalValue now param.type else JSValue.vNull),
              shouldThrow := some true, expectedError := some "TypeError" }]) ∧
    ((generateNullTests now name ps).filter (fun t => t.name == "undefined_inputs") =
      if (ps.filter (fun p => !p.isOptional)).length = 0 then []
      else [{ name := "undefined_inputs",
              description := name ++ " handles undefined input values",
              input := ps.map (fun param =>
                if param.isOptional then generateTypicalValue now param.type else JSValue.vUndefined),
              shouldThrow := some true, expectedError := some "TypeError" }]) := by
  rw [generateNullTests]
  by_cases hreq : (ps.filter (fun p => !p.isOptional)).length = 0
  · simp [hreq]
  · simp [hreq, List.filter]

/-- C5 as amended: the generic synthesizer emits exactly one
null-inputs case and one undefined-inputs case — not one pair per
required parameter — and in them every required parameter is set to
null (respectively undefined) at the same time while optional
parameters hold typical values; both are marked shouldThrow with the
TypeError tag, and both are absent when the signature has no required
parameter. -/
theorem null_tests_amended (now : Int) (sig : FunctionSignature) :
    ((generateGenericTests now sig).filter (fun t => t.name == "null_inputs") =
      if (sig.parameters.filter (fun p => !p.isOptional)).length = 0 then []
      else [{ name := "null_inputs",
              description := sig.name ++ " handles null input values",
              input := sig.parameters.map (fun param =>
                if param.isOptional then generateTypicalValue now param.type else JSValue.vNull),
              shouldThrow := some true, expectedError := some "TypeError" }]) ∧
    ((generateGenericTests now sig).filter (fun t => t.name == "undefined_inputs") =
      if (sig.parameters.filter (fun p => !p.isOptional)).length = 0 then []
      else [{ name := "undefined_inputs",
              description := sig.name ++ " handles undefined input values",
              input := sig.parameters.map (fun param =>
                if param.isOptional then generateTypicalValue now param.type else JSValue.vUndefined),
              shouldThrow := some true, expectedError := some "TypeError" }]) := by
  obtain ⟨hb1, hm1, hl1⟩ :=
    other_segments_filter_nil now sig.name sig.parameters "null_inputs" (Or.inl rfl)
  obtain ⟨hb2, hm2, hl2⟩ :=
    other_segments_filter_nil now sig.name sig.parameters "undefined_inputs" (Or.inr rfl)
  obtain ⟨hn1, hn2⟩ := nullTests_filter now sig.name sig.parameters
  have e1 : ("normal_execution" == "null_inputs") = false := by decide
  have e2 : ("edge_case_values" == "null_inputs") = false := by decide
  have e3 : ("empty_values" == "null_inputs") = false := by decide
  have e4 : ("normal_execution" == "undefined_inputs") = false := by decide
  have e5 : ("edge_case_values" == "undefined_inputs") = false := by decide
  have e6 : ("empty_values" == "undefined_inputs") = false := by decide
  constructor
  · simp only [generateGenericTests]
    split <;>
      simp only [List.append_eq, List.filter_append, hb1, hm1, hl1, hn1, List.filter,
        e1, e2, e3, List.append_nil, List.nil_append]
  · simp only [generateGenericTests]
    split <;>
      simp only [List.append_eq, List.filter_append, hb2, hm2, hl2, hn2, List.filter,
        e4, e5, e6, List.append_nil, List.nil_append]

/-- Counterexample to C5 as stated: in the two-required-number
signature, the claimed per-parameter case for the first parameter would
set only it to null (respectively undefined) while the second holds the
typical number 3, yet no generated test has that input — the only null
and undefined cases set both required parameters at once. -/
theorem null_tests_per_param_counterexample :
    (sigTwoNum.parameters.filter (fun p => !p.isOptional)).length = 2 ∧
    (generateGenericTests 0 sigTwoNum).all
      (fun t => t.input != [JSValue.vNull, JSValue.vNum 3]) = true ∧
    (generateGenericTests 0 sigTwoNum).all
      (fun t => t.input != [JSValue.vUndefined, JSValue.vNum 3]) = true := by
  decide

/-- On a date-free type string, the typical value does not depend on
the clock. -/
theorem generateTypicalValue_dateFree (t : String) (h : dateFree t = true) (n n' : Int) :
    generateTypicalValue n t = generateTypicalValue n' t := by
  have hd : strIncludes (trimStr (lowerStr t)) "date" = false := by
    simpa [dateFree] using h
  simp [generateTypicalValue, hd]

/-- Congruence of flat maps over a common list. -/
theorem flatMap_congr_mem {α β : Type} {l : List α} {f g : α → List β}
    (h : ∀ a ∈ l, f a = g a) : l.flatMap f = l.flatMap g := by
  induction l with
  | nil => rfl
  | cons x xs ih =>
    simp only [List.flatMap_cons]
    rw [h x (List.mem_cons_self x xs), ih (fun a ha => h a (List.mem_cons_of_mem x ha))]

/-- Counterexample to C6 as stated: the generic synthesizer is not a
pure function of the Signature for a date-typed parameter — the typical
value embeds the construction-time clock instant, so two invocations at
instants 0 and 1 yield different test lists. -/
theorem determinism_date_counterexample :
    generateGenericTests 0 sigDate ≠ generateGenericTests 1 sigDate := by
  decide

/-- C6 as amended: the generic synthesizer is deterministic on every
signature none of whose parameter types (lowercased and trimmed, before
or after stripping a trailing array suffix) mentions date; with a
date-typed parameter the output embeds the current instant and differs
across invocations at different instants. -/
theorem determinism_amended (sig : FunctionSignature)
    (h : ∀ p ∈ sig.parameters,
      dateFree p.type = true ∧ dateFree (stripArraySuffix p.type) = true)
    (now now' : Int) :
    generateGenericTests now sig = generateGenericTests now' sig := by
  have htyp : ∀ p ∈ sig.parameters,
      generateTypicalValue now p.type = generateTypicalValue now' p.type :=
    fun p hp => generateTypicalValue_dateFree p.type (h p hp).1 now now'
  have htypEnum : ∀ jp ∈ sig.parameters.enum,
      generateTypicalValue now jp.2.type = generateTypicalValue now' jp.2.type :=
    fun jp hjp => htyp jp.2 (List.snd_mem_of_mem_enum hjp)
  have hinputs : generateTypicalInputs now sig.parameters =
      generateTypicalInputs now' sig.parameters := by
    refine List.map_congr_left ?_
    intro p hp
    by_cases hrest : p.isRest
    · simp only [hrest, if_true]
      exact generateTypicalValue_dateFree _ (h p hp).2 now now'
    · simp only [hrest, if_false]
      exact htyp p hp
  have hnull : generateNullTests now sig.name sig.parameters =
      generateNullTests now' sig.name sig.parameters := by
    rw [generateNullTests, generateNullTests]
    by_cases hreq : (sig.parameters.filter (fun p => !p.isOptional)).length = 0
    · simp [hreq]
    · rw [if_neg hreq, if_neg hreq]
      simp only [List.cons.injEq, TestCase.mk.injEq, true_and, and_true]
      constructor <;>
      · refine List.map_congr_left ?_
        intro p hp
        by_cases hopt : p.isOptional
        · simp only [hopt, if_true]
          exact htyp p hp
        · simp only [hopt, Bool.false_eq_true, if_false]
  have hbound : generateBoundaryTests now sig.name sig.parameters =
      generateBoundaryTests now' sig.name sig.parameters := by
    rw [generateBoundaryTests, generateBoundaryTests]
    refine flatMap_congr_mem ?_
    intro ip _
    refine List.map_congr_left ?_
    intro nv _
    simp only [TestCase.mk.injEq, true_and, and_true]
    refine List.map_congr_left ?_
    intro jp hjp
    by_cases hidx : jp.1 = ip.1
    · simp only [hidx, if_pos rfl, if_true]
    · simp only [if_neg hidx]
      exact htypEnum jp hjp
  have hmal : generateMalformedInputTests now sig.name sig.parameters =
      generateMalformedInputTests now' sig.name sig.parameters := by
    rw [generateMalformedInputTests, generateMalformedInputTests]
    refine flatMap_congr_mem ?_
    intro ip _
    cases generateMalformedValue ip.2.type with
    | none => rfl
    | some v =>
      simp only [List.cons.injEq, TestCase.mk.injEq, true_and, and_true]
      refine List.map_congr_left ?_
      intro jp hjp
      by_cases hidx : jp.1 = ip.1
      · simp only [hidx, if_pos rfl, if_true]
      · simp only [if_neg hidx]
        exact htypEnum jp hjp
  have hlarge : generateLargeValueTests now sig.name sig.parameters =
      generateLargeValueTests now' sig.name sig.parameters := by
    rw [generateLargeValueTests, generateLargeValueTests]
    refine flatMap_congr_mem ?_
    intro ip _
    cases generateLargeValue ip.2.type with
    | none => rfl
    | some v =>
      simp only [List.cons.injEq, TestCase.mk.injEq, true_and, and_true]
      refine List.map_congr_left ?_
      intro jp hjp
      by_cases hidx : jp.1 = ip.1
      · simp only [hidx, if_pos rfl, if_true]
      · simp only [if_neg hidx]
        exact htypEnum jp hjp
  simp only [generateGenericTests, hinputs, hnull, hbound, hmal, hlarge]

/-- Witness for C6 as amended: the two-number signature yields the same
test list at instants 0 and 1. -/
theorem determinism_amended_witness :
    generateGenericTests 0 sigTwoNum = generateGenericTests 1 sigTwoNum :=
  determinism_amended sigTwoNum (by decide) 0 1

/-- C8: the signature extractor fails exactly on empty or
whitespace-only input; every other input yields a signature without
throwing, and when neither the named-declaration pattern nor the
assignment-to-callable pattern matches the cleaned code, the name falls
back to the placeholder unknownFunction. -/
theorem extractor_error_iff (code : String) :
    (extractFunctionSignature code =
        Except.error "Code cannot be empty or only whitespace" ↔ trimStr code = "") ∧
    (trimStr code ≠ "" → (extractFunctionSignature code).toOption.isSome = true) ∧
    (trimStr code ≠ "" → findFunctionName (cleanCodeOf code) = none →
      findArrowName (cleanCodeOf code) = none →
      (extractFunctionSignature code).toOption.map (fun s => s.name) =
        some "unknownFunction") := by
  refine ⟨⟨?_, ?_⟩, ?_, ?_⟩
  · intro he
    by_contra hne
    rw [extractFunctionSignature, if_neg hne] at he
    simp at he
  · intro h
    rw [extractFunctionSignature, if_pos h]
  · intro h
    rw [extractFunctionSignature, if_neg h]
    rfl
  · intro h hf ha
    rw [extractFunctionSignature, if_neg h]
    simp [Except.toOption, hf, ha]

/-- Witness for C8 on an input that is neither empty nor a recognized
declaration: extraction succeeds with the placeholder name. -/
theorem extractor_error_iff_witness :
    (extractFunctionSignature "let x = 1").toOption.map (fun s => s.name) =
      some "unknownFunction" :=
  (extractor_error_iff "let x = 1").2.2 (by decide) (by decide) (by decide)

/-- Counterexample to C9 as stated: the parameter list of
function f(a: [number, number]): number holds one top-level
declaration, whose tuple-type annotation nests a comma, yet the
extractor splits at that nested comma and reports two parameters
(named a and the bracket remnant), not one. -/
theorem param_split_counterexample :
    (extractFunctionSignature "function f(a: [number, number]): number").toOption.map
      (fun s => s.parameters.map (fun p => p.name)) = some ["a", "number]"] ∧
    (extractFunctionSignature "function f(a: [number, number]): number").toOption.map
      (fun s => s.parameters.length) = some 2 ∧ (2 : Nat) ≠ 1 := by
  decide

/-- C9 as amended: parseParameters splits the parameter string at
every comma with no bracket awareness, so a comma nested inside a
parameter annotation does split that parameter; the number of
extracted parameters is bounded by the number of comma-separated
segments (non-empty segments with a non-empty name each yield one),
and on the nested-tuple example the extractor reports two parameters
for one declaration. -/
theorem param_split_amended :
    (∀ s : String, (parseParameters s).length ≤ (splitStr ',' s).length) ∧
    (extractFunctionSignature "function f(a: [number, number]): number").toOption.map
      (fun s => s.parameters.length) = some 2 := by
  constructor
  · intro s
    rw [parseParameters]
    by_cases h : trimStr s = ""
    · simp [h]
    · rw [if_neg h]
      refine le_trans (List.length_filterMap_le _ _) ?_
      simp
  · decide
